import Mathlib

/-!
Verification of the zenith-sync service reconciler
(src/sync/zenith/sync/kubernetes.py) against its specification.

The Python module is shallowly embedded: Python dicts become association
lists over String keys, fallible dict subscripting becomes Except with a
key-error value, and the cluster/HTTP side effects of each method become an
explicit trace of actions.  External collaborators that live outside the
repository (the ingress-modifier plugins, the Helm client, the OIDC
provider, os.urandom, hashlib) are passed in as parameters, so every
definition stays executable.
-/

namespace Zenith

/-- A Python dict with string keys, as an association list in insertion
order.  Lookup finds the first (unique) occurrence of a key. -/
abbrev Dict (α : Type) := List (String × α)

/-- Python dict subscript / `dict.get`: the value at a key, if present. -/
def dictGet {α : Type} (d : Dict α) (k : String) : Option α :=
  match d with
  | [] => none
  | (a, b) :: t => if a = k then some b else dictGet t k

/-- Python `key in dict`. -/
def dictContains {α : Type} (d : Dict α) (k : String) : Bool :=
  (dictGet d k).isSome

/-- Python `dict[key] = value`: replace the value in place if the key
exists, otherwise append the new entry. -/
def dictSet {α : Type} (d : Dict α) (k : String) (v : α) : Dict α :=
  match d with
  | [] => [(k, v)]
  | (a, b) :: t => if a = k then (k, v) :: t else (a, b) :: dictSet t k v

/-- Python `dict.update(other)`: set every entry of `other` in turn. -/
def dictUpdate {α : Type} (d : Dict α) (other : Dict α) : Dict α :=
  other.foldl (fun acc kv => dictSet acc kv.1 kv.2) d

/-- A scalar or structured value appearing in a per-service config mapping
(the tunnel registration's directives). -/
inductive ConfigValue where
  | str (s : String)
  | flag (b : Bool)
  | params (d : Dict String)
deriving DecidableEq, Repr

/-- Python truthiness of a config value. -/
def ConfigValue.truthy : ConfigValue → Bool
  | .str s => s ≠ ""
  | .flag b => b
  | .params d => d ≠ []

/-- One tunnel endpoint (model.py Endpoint). -/
structure Endpoint where
  address : String
  port : Nat
deriving DecidableEq, Repr

/-- A registered service (model.py Service): unique name, endpoint list and
per-service config directives. -/
structure Service where
  name : String
  endpoints : List Endpoint
  config : Dict ConfigValue
deriving DecidableEq, Repr

/-- Kubernetes object metadata, restricted to the fields the reconciler
touches. -/
structure Metadata where
  name : String
  labels : Dict String
  annotations : Dict String
deriving DecidableEq, Repr

/-- A v1 Secret body as constructed by the reconciler: the data mapping
takes config-derived values verbatim, as the Python dict literals do. -/
structure Secret where
  metadata : Metadata
  type : Option String
  data : Dict ConfigValue
  stringData : Dict ConfigValue
deriving DecidableEq, Repr

/-- The backend reference of one ingress HTTP path. -/
structure PathBackend where
  serviceName : String
  portName : String
deriving DecidableEq, Repr

/-- One HTTP path of an ingress rule. -/
structure HTTPPath where
  path : String
  pathType : String
  backend : PathBackend
deriving DecidableEq, Repr

/-- One ingress rule (host plus its HTTP paths). -/
structure IngressRule where
  host : String
  paths : List HTTPPath
deriving DecidableEq, Repr

/-- One entry of an ingress spec's tls list. -/
structure IngressTLSItem where
  hosts : List String
  secretName : String
deriving DecidableEq, Repr

/-- An ingress spec, restricted to the fields the reconciler constructs. -/
structure IngressSpec where
  ingressClassName : String
  rules : List IngressRule
  tls : List IngressTLSItem
deriving DecidableEq, Repr

/-- A networking.k8s.io/v1 Ingress body. -/
structure Ingress where
  metadata : Metadata
  spec : IngressSpec
deriving DecidableEq, Repr

/-- An ingress-modifier plugin (ingress_modifier entry point), external to
this repository: a bundle of pure mutations on an ingress body. -/
structure IngressModifier where
  configure_defaults : Ingress → Ingress
  configure_backend_protocol : Ingress → String → Ingress
  configure_read_timeout : Ingress → Int → Ingress
  configure_tls_client_certificates : Ingress → String → String → Ingress
  configure_authentication :
    Ingress → String → String → Option String → Option (Dict String) →
      Option (List String) → Option (List String) → Ingress

/-- A Python exception raised by the embedded code. -/
inductive PyError where
  | keyError (k : String)
  | typeError (msg : String)
deriving DecidableEq, Repr

/-- The dynamic-client-registration request posted to the issuer's
registration endpoint (lines 165-190 of kubernetes.py). -/
structure RegRequest where
  redirectUri : String
  bearerToken : Option ConfigValue
deriving DecidableEq, Repr

/-- One observable side effect performed against the cluster, the Helm
client or the OIDC issuer. -/
inductive Action where
  | createOrReplaceSecret (name : String) (body : Secret)
  | createOrPatchSecret (name : String) (body : Secret)
  | createOrReplaceIngress (name : String) (body : Ingress)
  | deleteIngress (name : String)
  | helmEnsureRelease (name : String) (ns : String)
  | helmUninstallRelease (name : String) (ns : String)
  | oidcRegister (req : RegRequest)
deriving DecidableEq, Repr

/-- Whether an action tears an OIDC component down (deletes the /_oidc
ingress or uninstalls the proxy release). -/
def Action.isTeardown : Action → Bool
  | .deleteIngress _ => true
  | .helmUninstallRelease _ _ => true
  | _ => false

/-- config.ingress.tls. -/
structure IngressTLSConfig where
  enabled : Bool
  secret_name : String
  annotations : Dict String
deriving DecidableEq, Repr

/-- config.ingress.external_auth (param_header_pfx models the
param_header_prefix setting). -/
structure ExternalAuthConfig where
  url : String
  signin_url : String
  next_url_param : String
  request_headers : Dict String
  param_header_pfx : String
  response_headers : List String
deriving DecidableEq, Repr

/-- config.ingress. -/
structure IngressConfig where
  base_domain : String
  class_name : String
  annotations : Dict String
  tls : IngressTLSConfig
  external_auth : ExternalAuthConfig
deriving DecidableEq, Repr

/-- The sync component's configuration, restricted to the settings
kubernetes.py reads (tls_mirror_annotation_key models the
tls_mirror_annotation setting). -/
structure SyncConfig where
  created_by_label : String
  service_name_label : String
  target_namespace : String
  self_namespace : String
  tls_mirror_annotation_key : String
  cluster_services_domain : String
  reconciliation_retries : Nat
  ingress : IngressConfig
deriving DecidableEq, Repr

/-- ServiceReconciler._labels: the ownership label pair for a service. -/
def zenithLabels (cfg : SyncConfig) (name : String) : Dict String :=
  [(cfg.created_by_label, "zenith-sync"), (cfg.service_name_label, name)]

/-- ServiceReconciler._adopt on metadata: merge the ownership labels into
the resource's labels. -/
def adoptMetadata (cfg : SyncConfig) (serviceName : String) (m : Metadata) :
    Metadata :=
  { m with labels := dictUpdate m.labels (zenithLabels cfg serviceName) }

/-- ServiceReconciler._adopt applied to a secret body. -/
def adoptSecret (cfg : SyncConfig) (serviceName : String) (s : Secret) :
    Secret :=
  { s with metadata := adoptMetadata cfg serviceName s.metadata }

/-- ServiceReconciler._adopt applied to an ingress body. -/
def adoptIngress (cfg : SyncConfig) (serviceName : String) (i : Ingress) :
    Ingress :=
  { i with metadata := adoptMetadata cfg serviceName i.metadata }

/-- The tail of ServiceReconciler._apply_tls (lines 92-124): install the
computed tls section on the ingress, then handle the optional client-CA
secret and the controller-specific client-certificate configuration. -/
def applyTlsRest (cfg : SyncConfig) (service : Service)
    (serviceDomain : String) (tlsSecretName : Option String)
    (acts : List Action) (ingress : Ingress) (modifier : IngressModifier) :
    List Action × Ingress :=
  let ingress2 :=
    match tlsSecretName with
    | some n =>
      { ingress with
          spec := { ingress.spec with
                      tls := [{ hosts := [serviceDomain], secretName := n }] } }
    | none => ingress
  match dictGet service.config "tls-client-ca" with
  | some caV =>
    let caName := "tls-client-ca-" ++ service.name
    let caSecret :=
      adoptSecret cfg service.name
        { metadata := { name := caName, labels := [], annotations := [] }
          type := none
          data := [("ca.crt", caV)]
          stringData := [] }
    let ingress3 :=
      modifier.configure_tls_client_certificates ingress2
        cfg.target_namespace caName
    (acts ++ [Action.createOrReplaceSecret caName caSecret], ingress3)
  | none => (acts, ingress2)

/-- ServiceReconciler._apply_tls (lines 59-124).  A service-pushed
certificate wins over the auto-TLS configuration; reading the paired
tls-key raises a key error when it is absent, exactly as the Python dict
subscript does. -/
def applyTls (cfg : SyncConfig) (service : Service) (serviceDomain : String)
    (ingress : Ingress) (modifier : IngressModifier) :
    Except PyError (List Action × Ingress) :=
  match dictGet service.config "tls-cert" with
  | some certV =>
    match dictGet service.config "tls-key" with
    | none => .error (.keyError "tls-key")
    | some keyV =>
      let tlsSecretName := "tls-" ++ service.name
      let secret :=
        adoptSecret cfg service.name
          { metadata := { name := tlsSecretName, labels := [], annotations := [] }
            type := some "kubernetes.io/tls"
            data := [("tls.crt", certV), ("tls.key", keyV)]
            stringData := [] }
      .ok (applyTlsRest cfg service serviceDomain (some tlsSecretName)
            [Action.createOrReplaceSecret tlsSecretName secret] ingress modifier)
  | none =>
    if cfg.ingress.tls.enabled then
      let tlsSecretName :=
        if cfg.ingress.tls.secret_name ≠ "" then cfg.ingress.tls.secret_name
        else "tls-" ++ service.name
      let ingress2 :=
        { ingress with
            metadata := { ingress.metadata with
                            annotations := dictUpdate ingress.metadata.annotations
                              cfg.ingress.tls.annotations } }
      .ok (applyTlsRest cfg service serviceDomain (some tlsSecretName) []
            ingress2 modifier)
    else
      .ok (applyTlsRest cfg service serviceDomain none [] ingress modifier)

/-- The secret name derived for an issuer (lines 134-135): the release name
followed by the first 8 hex characters of the issuer hash.  The hexdigest
itself (hashlib.sha256) is passed in as a parameter. -/
def oidcSecretName (releaseName issuerHash : String) : String :=
  releaseName ++ "-" ++ (issuerHash.take 8)

/-- The outcome of ServiceReconciler._reconcile_oidc_secret: whether a
dynamic client registration was performed (and the request posted), the
secret body written back via create_or_patch (if any), the returned
cookie-secret / client-id / client-secret triple or the exception raised,
and, as a ghost observation, the computed next_data mapping. -/
structure OidcSecretOutcome where
  registered : Bool
  regRequest : Option RegRequest
  write : Option Secret
  result : Except PyError (ConfigValue × ConfigValue × ConfigValue)
  nextData : Dict ConfigValue

/-- Lines 195-206 of _reconcile_oidc_secret: patch the secret if and only
if the computed data differs from what was read (the patched body carries
no ownership labels), then return the three fields, raising a key error on
the first one that is missing.  The write precedes the lookups, exactly as
in the source. -/
def oidcFinish (secretName : String) (existingData nextData : Dict ConfigValue)
    (registered : Bool) (regReq : Option RegRequest) : OidcSecretOutcome :=
  let write : Option Secret :=
    if nextData ≠ existingData then
      some { metadata := { name := secretName, labels := [], annotations := [] }
             type := none
             data := []
             stringData := nextData }
    else none
  let result : Except PyError (ConfigValue × ConfigValue × ConfigValue) :=
    match dictGet nextData "cookie-secret" with
    | none => .error (.keyError "cookie-secret")
    | some c =>
      match dictGet nextData "client-id" with
      | none => .error (.keyError "client-id")
      | some i =>
        match dictGet nextData "client-secret" with
        | none => .error (.keyError "client-secret")
        | some s => .ok (c, i, s)
  { registered := registered
    regRequest := regReq
    write := write
    result := result
    nextData := nextData }

/-- ServiceReconciler._reconcile_oidc_secret (lines 126-206).
existingData is the decoded data of the secret read at lines 139-149
(empty when the fetch got a 404); freshCookie stands for the encoded
os.urandom cookie secret, issuerHash for the sha256 hexdigest of the
issuer, and regResult for the client id/secret the issuer's registration
endpoint would return. -/
def reconcileOidcSecret (cfg : SyncConfig) (releaseName : String)
    (service : Service) (serviceDomain : String)
    (existingData : Dict ConfigValue) (freshCookie : String)
    (issuerHash : String) (regResult : String × String) :
    OidcSecretOutcome :=
  match dictGet service.config "auth-oidc-issuer" with
  | none =>
    { registered := false, regRequest := none, write := none
      result := .error (.keyError "auth-oidc-issuer")
      nextData := existingData }
  | some _ =>
    let secretName := oidcSecretName releaseName issuerHash
    let d1 :=
      if dictContains existingData "cookie-secret" then existingData
      else dictSet existingData "cookie-secret" (.str freshCookie)
    match dictGet service.config "auth-oidc-client-id" with
    | some idV =>
      match dictGet service.config "auth-oidc-client-secret" with
      | none =>
        -- line 158 raises before any write happens
        { registered := false, regRequest := none, write := none
          result := .error (.keyError "auth-oidc-client-secret")
          nextData := d1 }
      | some secV =>
        oidcFinish secretName existingData
          (dictSet (dictSet d1 "client-id" idV) "client-secret" secV)
          false none
    | none =>
      if dictContains d1 "client-id" then
        oidcFinish secretName existingData d1 false none
      else
        let scheme :=
          if cfg.ingress.tls.enabled || dictContains service.config "tls-cert"
          then "https" else "http"
        let req : RegRequest :=
          { redirectUri := scheme ++ "://" ++ serviceDomain ++ "/_oidc/callback"
            bearerToken := dictGet service.config "auth-oidc-client-registration-token" }
        oidcFinish secretName existingData
          (dictSet (dictSet d1 "client-id" (.str regResult.1))
            "client-secret" (.str regResult.2))
          true (some req)

/-- The cluster effects of one _reconcile_oidc_secret call, in the order
they are performed: the registration request (if any) precedes the
create_or_patch of the record (lines 159-205). -/
def oidcSecretActions (o : OidcSecretOutcome) : List Action :=
  (match o.regRequest with
   | some r => [Action.oidcRegister r]
   | none => []) ++
  (match o.write with
   | some s => [Action.createOrPatchSecret s.metadata.name s]
   | none => [])

/-- ServiceReconciler._reconcile_oidc_proxy (lines 273-325): reconcile the
client-record secret, then ensure the oauth2-proxy Helm release.  An
exception from the secret step propagates before the release is touched. -/
def reconcileOidcProxy (cfg : SyncConfig) (releaseName : String)
    (service : Service) (serviceDomain : String)
    (existingData : Dict ConfigValue) (freshCookie : String)
    (issuerHash : String) (regResult : String × String) :
    List Action × Except PyError Unit :=
  let o := reconcileOidcSecret cfg releaseName service serviceDomain
    existingData freshCookie issuerHash regResult
  match o.result with
  | .error e => (oidcSecretActions o, .error e)
  | .ok _ =>
    (oidcSecretActions o ++
      [Action.helmEnsureRelease releaseName cfg.target_namespace], .ok ())

/-- The unauthenticated ingress body for the /_oidc path built by
ServiceReconciler._reconcile_oidc_ingress (lines 327-384), before
adoption: the TLS secret choice replicates the _apply_tls precedence. -/
def oidcIngressBody (cfg : SyncConfig) (releaseName : String)
    (service : Service) (serviceDomain : String)
    (modifier : IngressModifier) : Ingress :=
  let tlsSecretName : Option String :=
    if dictContains service.config "tls-cert" then
      some ("tls-" ++ service.name)
    else if cfg.ingress.tls.enabled then
      some (if cfg.ingress.tls.secret_name ≠ "" then cfg.ingress.tls.secret_name
            else "tls-" ++ service.name)
    else none
  let base : Ingress :=
    { metadata := { name := releaseName, labels := [], annotations := [] }
      spec :=
        { ingressClassName := cfg.ingress.class_name
          rules :=
            [{ host := serviceDomain
               paths :=
                 [{ path := "/_oidc"
                    pathType := "Prefix"
                    backend := { serviceName := releaseName, portName := "http" } }] }]
          tls :=
            match tlsSecretName with
            | some n => [{ hosts := [serviceDomain], secretName := n }]
            | none => [] } }
  let base2 := modifier.configure_defaults base
  { base2 with
      metadata := { base2.metadata with
                      annotations := dictUpdate base2.metadata.annotations
                        cfg.ingress.annotations } }

/-- service.config.get("skip-auth", False), as a truthiness test. -/
def skipAuthOf (service : Service) : Bool :=
  match dictGet service.config "skip-auth" with
  | some v => v.truthy
  | none => false

/-- service.config.get("auth-type", "external"). -/
def authTypeOf (service : Service) : ConfigValue :=
  (dictGet service.config "auth-type").getD (ConfigValue.str "external")

/-- The auth-request headers of the external-auth branch (lines 436-442):
the configured defaults updated with the per-service auth-external-params,
each key prefixed by the configured prefix string.  Iterating .items() on
a non-dict value raises a TypeError-like failure. -/
def externalAuthHeaders (cfg : SyncConfig) (service : Service) :
    Except PyError (Dict String) :=
  match dictGet service.config "auth-external-params" with
  | none => .ok cfg.ingress.external_auth.request_headers
  | some (.params d) =>
    .ok (dictUpdate cfg.ingress.external_auth.request_headers
      (d.map (fun p => (cfg.ingress.external_auth.param_header_pfx ++ p.1, p.2))))
  | some _ => .error (.typeError "auth-external-params is not a mapping")

/-- The external-auth tail of _apply_auth (lines 433-450). -/
def applyAuthExternal (cfg : SyncConfig) (service : Service)
    (acts : List Action) (ingress : Ingress) (modifier : IngressModifier) :
    List Action × Except PyError Ingress :=
  if skipAuthOf service = false ∧ authTypeOf service = ConfigValue.str "external" ∧
      cfg.ingress.external_auth.url ≠ "" then
    match externalAuthHeaders cfg service with
    | .error e => (acts, .error e)
    | .ok requestHeaders =>
      (acts, .ok (modifier.configure_authentication ingress
        cfg.ingress.external_auth.url
        cfg.ingress.external_auth.signin_url
        (some cfg.ingress.external_auth.next_url_param)
        (some requestHeaders)
        (some cfg.ingress.external_auth.response_headers)
        none))
  else
    (acts, .ok ingress)

/-- ServiceReconciler._apply_auth (lines 386-450).  When OIDC is selected
the proxy release and /_oidc ingress are reconciled and the main ingress
is pointed at the proxy's auth URL; otherwise both OIDC components are
actively deleted.  The OIDC oracles (existing record data, fresh cookie,
issuer hash, registration response) are passed through. -/
def applyAuth (cfg : SyncConfig) (service : Service) (serviceDomain : String)
    (ingress : Ingress) (modifier : IngressModifier)
    (existingData : Dict ConfigValue) (freshCookie : String)
    (issuerHash : String) (regResult : String × String) :
    List Action × Except PyError Ingress :=
  let releaseName := "oidc-" ++ service.name
  if skipAuthOf service = false ∧ authTypeOf service = ConfigValue.str "oidc" then
    let pr := reconcileOidcProxy cfg releaseName service serviceDomain
      existingData freshCookie issuerHash regResult
    match pr.2 with
    | .error e => (pr.1, .error e)
    | .ok _ =>
      let oidcIngress :=
        adoptIngress cfg service.name
          (oidcIngressBody cfg releaseName service serviceDomain modifier)
      let acts2 := pr.1 ++ [Action.createOrReplaceIngress releaseName oidcIngress]
      let ingress2 :=
        modifier.configure_authentication ingress
          ("http://" ++ releaseName ++ "." ++ cfg.target_namespace ++ "." ++
            cfg.cluster_services_domain ++ "/_oidc/auth")
          "https://$host/_oidc/start??rd=$escaped_request_uri&$args"
          none
          none
          (some ["X-Remote-User", "X-Remote-Group", "X-Access-Token"])
          (some ["_oauth2_proxy_1", "_oauth2_proxy_2", "_oauth2_proxy_3"])
      applyAuthExternal cfg service acts2 ingress2 modifier
  else
    let acts :=
      [Action.deleteIngress releaseName,
       Action.helmUninstallRelease releaseName cfg.target_namespace]
    applyAuthExternal cfg service acts ingress modifier

/-- Whether a retry loop was wrapping a reconcile or a remove (the two
near-identical loops at lines 589-613 and 615-639). -/
inductive OpKind where
  | reconcile
  | remove
deriving DecidableEq, Repr

/-- One log line emitted by a retry loop. -/
inductive LogMsg where
  | retrying (op : OpKind) (name : String) (attempt : Nat)
  | givingUp (op : OpKind) (name : String) (retries : Nat)
deriving DecidableEq, Repr

/-- Whether a log line is the terminal give-up message. -/
def isGivingUp : LogMsg → Bool
  | .givingUp _ _ _ => true
  | _ => false

/-- The loop body shared by _try_reconcile_service and
_try_remove_service: run the operation at the current attempt number; on
failure give up (with a log) when the attempt count equals the configured
retries, otherwise log and retry immediately.  The loop has no intrinsic
bound, so it is driven by explicit fuel; none means it was still running
when the fuel ran out.  fails tells whether the underlying operation
raises on a given attempt. -/
def tryServiceOpAux (op : OpKind) (retries : Nat) (fails : Nat → Bool)
    (name : String) : Nat → Nat → List LogMsg → Option (Nat × List LogMsg)
  | 0, _, _ => none
  | fuel + 1, attempt, logs =>
    if fails attempt then
      if attempt = retries then
        some (attempt, logs ++ [LogMsg.givingUp op name retries])
      else
        tryServiceOpAux op retries fails name fuel (attempt + 1)
          (logs ++ [LogMsg.retrying op name attempt])
    else
      some (attempt, logs)

/-- _try_reconcile_service / _try_remove_service (lines 589-639): the
retry loop started at attempt 1 with no logs. -/
def tryServiceOp (op : OpKind) (retries : Nat) (fails : Nat → Bool)
    (name : String) (fuel : Nat) : Option (Nat × List LogMsg) :=
  tryServiceOpAux op retries fails name fuel 1 []

/-- The startup batch of try-wrapped operations for a list of services
with their per-attempt failure behaviours (the asyncio.gather of run). -/
def runBatch (op : OpKind) (retries fuel : Nat)
    (ops : List (String × (Nat → Bool))) : List (Option (Nat × List LogMsg)) :=
  ops.map (fun p => tryServiceOp op retries p.2 p.1 fuel)

/-- A v1 Service object found in the cluster at startup, as far as the
label-selector query is concerned. -/
structure ClusterSvcObj where
  name : String
  labels : Dict String
deriving DecidableEq, Repr

/-- The label selector used at line 664: created-by equals zenith-sync and
the service-name label is PRESENT (wildcard value). -/
def matchesOwnerSelector (cfg : SyncConfig) (labels : Dict String) : Bool :=
  decide (dictGet labels cfg.created_by_label = some "zenith-sync") &&
    (dictGet labels cfg.service_name_label).isSome

/-- The set of existing managed service names collected at lines 661-665
(a Python set comprehension; dedup models the set). -/
def existingServiceNames (cfg : SyncConfig) (cluster : List ClusterSvcObj) :
    List String :=
  ((cluster.filter (fun o => matchesOwnerSelector cfg o.labels)).map
    (fun o => o.name)).dedup

/-- The startup work computed at lines 666-672: a reconcile task per
initial service and a remove task per existing managed name that is not in
the initial snapshot. -/
def startupTasks (cfg : SyncConfig) (cluster : List ClusterSvcObj)
    (initial : List Service) : List Service × List String :=
  (initial,
   (existingServiceNames cfg cluster).filter
     (fun n => initial.all (fun s => s.name != n)))

/-- The source secret object watched by the TLS mirror. -/
structure WatchedSecret where
  ns : String
  name : String
  type : String
  data : Dict ConfigValue
deriving DecidableEq, Repr

/-- One watch event delivered for the source secret. -/
structure SecretEvent where
  type : String
  object : WatchedSecret
deriving DecidableEq, Repr

/-- One effect of the mirror loop on the target namespace. -/
inductive MirrorAction where
  | update (ns : String) (name : String) (body : Secret)
  | delete (ns : String) (name : String)
deriving DecidableEq, Repr

/-- The mirror body written by TLSSecretMirror._update_mirror (lines
690-719): same type and data as the source object, the created-by label,
and a back-reference annotation source-namespace/source-name. -/
def mirrorSecretBody (cfg : SyncConfig) (src : WatchedSecret) : Secret :=
  { metadata :=
      { name := cfg.ingress.tls.secret_name
        labels := [(cfg.created_by_label, "zenith-sync")]
        annotations := [(cfg.tls_mirror_annotation_key, src.ns ++ "/" ++ src.name)] }
    type := some src.type
    data := src.data
    stringData := [] }

/-- The per-event dispatch of TLSSecretMirror.run (lines 759-763). -/
def mirrorStep (cfg : SyncConfig) (ev : SecretEvent) : MirrorAction :=
  if ev.type ≠ "DELETED" then
    .update cfg.target_namespace cfg.ingress.tls.secret_name
      (mirrorSecretBody cfg ev.object)
  else
    .delete cfg.target_namespace cfg.ingress.tls.secret_name

/-- The initial-state dispatch of TLSSecretMirror.run (lines 755-758). -/
def mirrorInit (cfg : SyncConfig) (initial : Option WatchedSecret) :
    MirrorAction :=
  match initial with
  | some src =>
    .update cfg.target_namespace cfg.ingress.tls.secret_name
      (mirrorSecretBody cfg src)
  | none => .delete cfg.target_namespace cfg.ingress.tls.secret_name

/-- The guard at line 740: mirroring runs only when TLS is enabled and a
shared secret name is configured. -/
def mirrorEnabled (cfg : SyncConfig) : Bool :=
  cfg.ingress.tls.enabled && (cfg.ingress.tls.secret_name != "")

/-- TLSSecretMirror.run (lines 736-767) over a finite prefix of the watch
stream: the action trace, or none when mirroring is disabled and the loop
idles. -/
def mirrorRun (cfg : SyncConfig) (initial : Option WatchedSecret)
    (events : List SecretEvent) : Option (List MirrorAction) :=
  if mirrorEnabled cfg then
    some (mirrorInit cfg initial :: events.map (mirrorStep cfg))
  else none

/-! Concrete fixtures used by witnesses and counterexamples. -/

/-- A sync configuration with auto-TLS enabled and a shared wildcard
secret configured. -/
def exCfg : SyncConfig :=
  { created_by_label := "zenith/created-by"
    service_name_label := "zenith/service-name"
    target_namespace := "zenith-services"
    self_namespace := "zenith"
    tls_mirror_annotation_key := "zenith/mirrors"
    cluster_services_domain := "svc.cluster.local"
    reconciliation_retries := 3
    ingress :=
      { base_domain := "apps.example.org"
        class_name := "nginx"
        annotations := []
        tls :=
          { enabled := true
            secret_name := "wildcard-tls"
            annotations := [("cert-manager.io/cluster-issuer", "letsencrypt")] }
        external_auth :=
          { url := ""
            signin_url := ""
            next_url_param := "next"
            request_headers := []
            param_header_pfx := "x-auth-"
            response_headers := [] } } }

/-- An ingress modifier whose mutations are all the identity. -/
def idModifier : IngressModifier :=
  { configure_defaults := fun i => i
    configure_backend_protocol := fun i _ => i
    configure_read_timeout := fun i _ => i
    configure_tls_client_certificates := fun i _ _ => i
    configure_authentication := fun i _ _ _ _ _ _ => i }

/-- A bare primary ingress body, as built at lines 510-540 before any
mutation. -/
def emptyIngress : Ingress :=
  { metadata := { name := "app", labels := [], annotations := [] }
    spec := { ingressClassName := "nginx", rules := [], tls := [] } }

/-- A service that pushed a certificate but no key. -/
def c3Service : Service :=
  { name := "app"
    endpoints := [{ address := "10.0.0.1", port := 8000 }]
    config := [("tls-cert", .str "CERTDATA")] }

/-- A service that pushed a certificate/key pair. -/
def c3WitService : Service :=
  { name := "app"
    endpoints := [{ address := "10.0.0.1", port := 8000 }]
    config := [("tls-cert", .str "CERTDATA"), ("tls-key", .str "KEYDATA")] }

/-- An OIDC service supplying an explicit client id and secret. -/
def c1Service : Service :=
  { name := "app"
    endpoints := [{ address := "10.0.0.1", port := 8080 }]
    config :=
      [("auth-oidc-issuer", .str "https://issuer.example.org")
      ,("auth-oidc-client-id", .str "client")
      ,("auth-oidc-client-secret", .str "hunter2")] }

/-- An OIDC service supplying a client id but no client secret. -/
def c10Service : Service :=
  { name := "app"
    endpoints := [{ address := "10.0.0.1", port := 8080 }]
    config :=
      [("auth-oidc-issuer", .str "https://issuer.example.org")
      ,("auth-oidc-client-id", .str "client")] }

/-- A service with no auth directives (external auth by default). -/
def extService : Service :=
  { name := "app"
    endpoints := [{ address := "10.0.0.1", port := 8080 }]
    config := [] }

/-- Initial snapshot member for the startup-sync scenario. -/
def svcA : Service :=
  { name := "a"
    endpoints := [{ address := "10.0.0.1", port := 9000 }]
    config := [] }

/-- Existing managed Service objects for names a and b. -/
def clusterAB : List ClusterSvcObj :=
  [{ name := "a"
     labels := [("zenith/created-by", "zenith-sync"), ("zenith/service-name", "a")] }
  ,{ name := "b"
     labels := [("zenith/created-by", "zenith-sync"), ("zenith/service-name", "b")] }]

/-- A source secret for the mirror scenario. -/
def wildcardSecret : WatchedSecret :=
  { ns := "zenith"
    name := "wildcard-tls"
    type := "kubernetes.io/tls"
    data := [("tls.crt", .str "CRT"), ("tls.key", .str "KEY")] }

/-! Association-list dictionary lemmas. -/

theorem dictGet_set_self {α : Type} (d : Dict α) (k : String) (v : α) :
    dictGet (dictSet d k v) k = some v := by
  induction d with
  | nil => simp [dictSet, dictGet]
  | cons p t ih =>
    obtain ⟨a, b⟩ := p
    by_cases h : a = k
    · simp [dictSet, dictGet, h]
    · simp [dictSet, dictGet, h, ih]

theorem dictGet_set_ne {α : Type} (d : Dict α) (k k' : String) (v : α)
    (h : k' ≠ k) : dictGet (dictSet d k v) k' = dictGet d k' := by
  induction d with
  | nil => simp [dictSet, dictGet, Ne.symm h]
  | cons p t ih =>
    obtain ⟨a, b⟩ := p
    by_cases ha : a = k
    · subst ha
      simp [dictSet, dictGet, Ne.symm h]
    · simp [dictSet, dictGet, ha, ih]

theorem dictSet_eq_self {α : Type} (d : Dict α) (k : String) (v : α)
    (h : dictGet d k = some v) : dictSet d k v = d := by
  induction d with
  | nil => simp [dictGet] at h
  | cons p t ih =>
    obtain ⟨a, b⟩ := p
    by_cases ha : a = k
    · subst ha
      simp [dictGet] at h
      simp [dictSet, h]
    · simp [dictGet, ha] at h
      simp [dictSet, ha, ih h]

theorem dictContains_set {α : Type} (d : Dict α) (k k' : String) (v : α) :
    dictContains (dictSet d k v) k' =
      (decide (k' = k) || dictContains d k') := by
  by_cases h : k' = k
  · subst h
    simp [dictContains, dictGet_set_self]
  · simp [dictContains, dictGet_set_ne d k k' v h, h]

/-! Lemmas about the TLS attachment. -/

theorem applyTlsRest_fst_mem (cfg : SyncConfig) (service : Service)
    (serviceDomain : String) (tn : Option String) (acts : List Action)
    (ingress : Ingress) (modifier : IngressModifier) (a : Action)
    (ha : a ∈ acts) :
    a ∈ (applyTlsRest cfg service serviceDomain tn acts ingress modifier).1 := by
  unfold applyTlsRest
  cases h : dictGet service.config "tls-client-ca" <;> simp [ha]

theorem applyTlsRest_snd_tls (cfg : SyncConfig) (service : Service)
    (serviceDomain : String) (tn : String) (acts : List Action)
    (ingress : Ingress) (modifier : IngressModifier)
    (hmod : ∀ i ns s,
      (modifier.configure_tls_client_certificates i ns s).spec.tls = i.spec.tls) :
    (applyTlsRest cfg service serviceDomain (some tn) acts ingress modifier).2.spec.tls
      = [{ hosts := [serviceDomain], secretName := tn }] := by
  unfold applyTlsRest
  cases h : dictGet service.config "tls-client-ca" <;> simp [hmod]

/-- C3 (amended): for every service whose config contains tls-cert and its
paired tls-key, a dedicated secret named tls-name is created and
referenced as the ingress TLS secret, even when automatic TLS is disabled
and even when a shared auto-TLS secret name is configured; only when
tls-cert is absent and automatic TLS is enabled is the configured shared
secret name used, defaulting to tls-name when no shared name is
configured.  (The modifier hypothesis says the client-certificate plugin
mutation leaves the tls section alone, which is its documented role.) -/
theorem applyTls_dedicated_cert_precedence (cfg : SyncConfig)
    (service : Service) (serviceDomain : String) (ingress : Ingress)
    (modifier : IngressModifier)
    (hmod : ∀ i ns s,
      (modifier.configure_tls_client_certificates i ns s).spec.tls = i.spec.tls) :
    (∀ certV keyV,
      dictGet service.config "tls-cert" = some certV →
      dictGet service.config "tls-key" = some keyV →
      ∃ acts ing2,
        applyTls cfg service serviceDomain ingress modifier = .ok (acts, ing2) ∧
        (∃ body,
          Action.createOrReplaceSecret ("tls-" ++ service.name) body ∈ acts ∧
          body.metadata.name = "tls-" ++ service.name ∧
          dictGet body.data "tls.crt" = some certV ∧
          dictGet body.data "tls.key" = some keyV) ∧
        ing2.spec.tls =
          [{ hosts := [serviceDomain], secretName := "tls-" ++ service.name }]) ∧
    (dictGet service.config "tls-cert" = none →
      cfg.ingress.tls.enabled = true →
      ∃ acts ing2,
        applyTls cfg service serviceDomain ingress modifier = .ok (acts, ing2) ∧
        ing2.spec.tls =
          [{ hosts := [serviceDomain]
             secretName :=
               if cfg.ingress.tls.secret_name ≠ "" then cfg.ingress.tls.secret_name
               else "tls-" ++ service.name }]) := by
  constructor
  · intro certV keyV hcert hkey
    have hmain : applyTls cfg service serviceDomain ingress modifier = .ok
        ((applyTlsRest cfg service serviceDomain (some ("tls-" ++ service.name))
          [Action.createOrReplaceSecret ("tls-" ++ service.name)
            (adoptSecret cfg service.name
              { metadata := { name := "tls-" ++ service.name, labels := [], annotations := [] }
                type := some "kubernetes.io/tls"
                data := [("tls.crt", certV), ("tls.key", keyV)]
                stringData := [] })] ingress modifier).1,
         (applyTlsRest cfg service serviceDomain (some ("tls-" ++ service.name))
          [Action.createOrReplaceSecret ("tls-" ++ service.name)
            (adoptSecret cfg service.name
              { metadata := { name := "tls-" ++ service.name, labels := [], annotations := [] }
                type := some "kubernetes.io/tls"
                data := [("tls.crt", certV), ("tls.key", keyV)]
                stringData := [] })] ingress modifier).2) := by
      simp [applyTls, hcert, hkey]
    refine ⟨_, _, hmain, ?_, ?_⟩
    · refine ⟨_, applyTlsRest_fst_mem cfg service serviceDomain _ _ ingress modifier _
        (List.mem_singleton.mpr rfl), ?_, ?_, ?_⟩
      · simp [adoptSecret, adoptMetadata]
      · simp [adoptSecret, dictGet]
      · simp [adoptSecret, dictGet]
    · exact applyTlsRest_snd_tls cfg service serviceDomain _ _ ingress modifier hmod
  · intro hcert henabled
    have hmain : applyTls cfg service serviceDomain ingress modifier = .ok
        ((applyTlsRest cfg service serviceDomain
          (some (if cfg.ingress.tls.secret_name ≠ "" then cfg.ingress.tls.secret_name
                 else "tls-" ++ service.name)) []
          { ingress with
              metadata := { ingress.metadata with
                              annotations := dictUpdate ingress.metadata.annotations
                                cfg.ingress.tls.annotations } } modifier).1,
         (applyTlsRest cfg service serviceDomain
          (some (if cfg.ingress.tls.secret_name ≠ "" then cfg.ingress.tls.secret_name
                 else "tls-" ++ service.name)) []
          { ingress with
              metadata := { ingress.metadata with
                              annotations := dictUpdate ingress.metadata.annotations
                                cfg.ingress.tls.annotations } } modifier).2) := by
      simp [applyTls, hcert, henabled]
    refine ⟨_, _, hmain, ?_⟩
    exact applyTlsRest_snd_tls cfg service serviceDomain _ _ _ modifier hmod

/-- C3 counterexample: a service whose config contains tls-cert but no
tls-key makes _apply_tls raise a key error, so no dedicated secret is
created and nothing is referenced: the claim's quantification over every
service with tls-cert fails. -/
theorem applyTls_missing_key_counterexample :
    applyTls exCfg c3Service "app.apps.example.org" emptyIngress idModifier =
      .error (.keyError "tls-key") := rfl

/-- Witness for the amended C3 theorem: with both tls-cert and tls-key
present, and auto-TLS enabled with a shared wildcard secret configured,
the dedicated per-service secret name is the one referenced. -/
theorem applyTls_dedicated_cert_precedence_witness :
    (applyTls exCfg c3WitService "app.apps.example.org" emptyIngress
      idModifier).toOption.map (fun p => p.2.spec.tls) =
      some [{ hosts := ["app.apps.example.org"], secretName := "tls-app" }] := by
  obtain ⟨acts, ing2, heq, -, htls⟩ :=
    (applyTls_dedicated_cert_precedence exCfg c3WitService "app.apps.example.org"
      emptyIngress idModifier (fun i ns s => rfl)).1
      (.str "CERTDATA") (.str "KEYDATA") rfl rfl
  rw [heq]
  simp only [Except.toOption, Option.map_some']
  rw [htls]
  rfl

/-! Lemmas about the OIDC client-record reconciliation. -/

theorem oidcFinish_nextData (sn : String) (ex nd : Dict ConfigValue)
    (r : Bool) (rq : Option RegRequest) :
    (oidcFinish sn ex nd r rq).nextData = nd := rfl

theorem oidcFinish_registered (sn : String) (ex nd : Dict ConfigValue)
    (r : Bool) (rq : Option RegRequest) :
    (oidcFinish sn ex nd r rq).registered = r := rfl

theorem oidcFinish_result_ok (sn : String) (ex nd : Dict ConfigValue)
    (r : Bool) (rq : Option RegRequest) (c i s : ConfigValue)
    (hc : dictGet nd "cookie-secret" = some c)
    (hi : dictGet nd "client-id" = some i)
    (hs : dictGet nd "client-secret" = some s) :
    (oidcFinish sn ex nd r rq).result = .ok (c, i, s) := by
  simp [oidcFinish, hc, hi, hs]

theorem oidcFinish_write_none_iff (sn : String) (ex nd : Dict ConfigValue)
    (r : Bool) (rq : Option RegRequest) :
    (oidcFinish sn ex nd r rq).write = none ↔ nd = ex := by
  by_cases h : nd = ex <;> simp [oidcFinish, h]

theorem oidcFinish_result_ok_iff (sn : String) (ex nd : Dict ConfigValue)
    (r : Bool) (rq : Option RegRequest) (t : ConfigValue × ConfigValue × ConfigValue) :
    (oidcFinish sn ex nd r rq).result = .ok t ↔
      (dictGet nd "cookie-secret" = some t.1 ∧
       dictGet nd "client-id" = some t.2.1 ∧
       dictGet nd "client-secret" = some t.2.2) := by
  obtain ⟨tc, ti, ts⟩ := t
  cases hc : dictGet nd "cookie-secret" with
  | none => simp [oidcFinish, hc]
  | some c =>
    cases hi : dictGet nd "client-id" with
    | none => simp [oidcFinish, hc, hi]
    | some i =>
      cases hs : dictGet nd "client-secret" with
      | none => simp [oidcFinish, hc, hi, hs]
      | some s =>
        simp [oidcFinish, hc, hi, hs, Prod.ext_iff]

/-- The cookie-secret step (lines 152-154) always leaves a cookie secret
in the data: the one read, or the freshly generated one. -/
theorem oidc_cookie_present (existingData : Dict ConfigValue)
    (freshCookie : String) :
    ∃ c, dictGet
      (if dictContains existingData "cookie-secret" then existingData
       else dictSet existingData "cookie-secret" (ConfigValue.str freshCookie))
      "cookie-secret" = some c := by
  by_cases h : dictContains existingData "cookie-secret"
  · rw [if_pos h]
    exact Option.isSome_iff_exists.mp h
  · rw [if_neg h]
    exact ⟨_, dictGet_set_self existingData "cookie-secret" _⟩

/-- C1: the claim fails on the code.  The OIDC client-record secret is
written back via create_or_patch without ServiceReconciler._adopt, so its
body carries no ownership labels at all, while every other resource is
adopted: the first conjunct evaluates the write performed for a concrete
OIDC service and finds an empty label mapping, the second shows what
adoption stamps on the resources that do go through _adopt. -/
theorem oidc_record_secret_written_without_ownership_labels :
    ((reconcileOidcSecret exCfg "oidc-app" c1Service "app.apps.example.org"
        [] "COOKIESECRET" "0123456789abcdef" ("rid", "rsecret")).write.map
      (fun s => s.metadata.labels)) = some [] ∧
    (adoptSecret exCfg "app"
      { metadata := { name := "tls-app", labels := [], annotations := [] }
        type := none, data := [], stringData := [] }).metadata.labels =
      [("zenith/created-by", "zenith-sync"), ("zenith/service-name", "app")] := by
  exact ⟨rfl, rfl⟩

/-- C10: for a service whose config supplies auth-oidc-client-id but not
auth-oidc-client-secret, the OIDC client-record reconciliation raises
before the write-back step, so no patch of the stored record happens; when
the issuer key is present (as it is for any OIDC service) the error is
precisely the missing-key error on the client secret. -/
theorem oidc_missing_client_secret_raises (cfg : SyncConfig)
    (releaseName : String) (service : Service) (serviceDomain : String)
    (existingData : Dict ConfigValue) (freshCookie issuerHash : String)
    (regResult : String × String)
    (hid : dictContains service.config "auth-oidc-client-id" = true)
    (hsec : dictContains service.config "auth-oidc-client-secret" = false) :
    ((reconcileOidcSecret cfg releaseName service serviceDomain existingData
        freshCookie issuerHash regResult).write = none) ∧
    (∃ e, (reconcileOidcSecret cfg releaseName service serviceDomain existingData
        freshCookie issuerHash regResult).result = .error e) ∧
    (dictContains service.config "auth-oidc-issuer" = true →
      (reconcileOidcSecret cfg releaseName service serviceDomain existingData
        freshCookie issuerHash regResult).result =
        .error (.keyError "auth-oidc-client-secret")) := by
  obtain ⟨idV, hgid⟩ := Option.isSome_iff_exists.mp hid
  have hgsec : dictGet service.config "auth-oidc-client-secret" = none := by
    cases h : dictGet service.config "auth-oidc-client-secret" with
    | none => rfl
    | some v => rw [dictContains, h] at hsec; simp at hsec
  cases hiss : dictGet service.config "auth-oidc-issuer" with
  | none =>
    refine ⟨?_, ⟨.keyError "auth-oidc-issuer", ?_⟩, ?_⟩
    · simp [reconcileOidcSecret, hiss]
    · simp [reconcileOidcSecret, hiss]
    · intro h
      rw [dictContains, hiss] at h
      simp at h
  | some iv =>
    refine ⟨?_, ⟨.keyError "auth-oidc-client-secret", ?_⟩, fun _ => ?_⟩ <;>
      simp [reconcileOidcSecret, hiss, hgid, hgsec]

/-- Witness for the C10 theorem at a concrete service. -/
theorem oidc_missing_client_secret_raises_witness :
    (reconcileOidcSecret exCfg "oidc-app" c10Service "app.apps.example.org"
      [] "COOKIESECRET" "0123456789abcdef" ("rid", "rsecret")).result =
      .error (.keyError "auth-oidc-client-secret") :=
  (oidc_missing_client_secret_raises exCfg "oidc-app" c10Service
    "app.apps.example.org" [] "COOKIESECRET" "0123456789abcdef"
    ("rid", "rsecret") rfl rfl).2.2 rfl

/-- C5: in OIDC client-record reconciliation (for a service with an issuer
configured), an explicitly supplied client id/secret is adopted
unconditionally, overwriting whatever is on record, and no registration is
performed; dynamic client registration happens exactly when no explicit
client id is supplied and the record read from the cluster has no
client-id. -/
theorem oidc_explicit_overrides_and_registration_iff (cfg : SyncConfig)
    (releaseName : String) (service : Service) (serviceDomain : String)
    (existingData : Dict ConfigValue) (freshCookie issuerHash : String)
    (regResult : String × String)
    (hiss : dictContains service.config "auth-oidc-issuer" = true) :
    (∀ idV secV,
      dictGet service.config "auth-oidc-client-id" = some idV →
      dictGet service.config "auth-oidc-client-secret" = some secV →
      (reconcileOidcSecret cfg releaseName service serviceDomain existingData
        freshCookie issuerHash regResult).registered = false ∧
      ∃ c, (reconcileOidcSecret cfg releaseName service serviceDomain existingData
        freshCookie issuerHash regResult).result = .ok (c, idV, secV)) ∧
    ((reconcileOidcSecret cfg releaseName service serviceDomain existingData
        freshCookie issuerHash regResult).registered = true ↔
      (dictContains service.config "auth-oidc-client-id" = false ∧
       dictContains existingData "client-id" = false)) := by
  obtain ⟨iv, hiss'⟩ := Option.isSome_iff_exists.mp hiss
  constructor
  · intro idV secV hgid hgsec
    constructor
    · simp [reconcileOidcSecret, hiss', hgid, hgsec, oidcFinish_registered]
    · obtain ⟨c, hc⟩ := oidc_cookie_present existingData freshCookie
      refine ⟨c, ?_⟩
      have h1 : dictGet (dictSet (dictSet
          (if dictContains existingData "cookie-secret" then existingData
           else dictSet existingData "cookie-secret" (ConfigValue.str freshCookie))
          "client-id" idV) "client-secret" secV) "client-secret" = some secV :=
        dictGet_set_self _ _ _
      have h2 : dictGet (dictSet (dictSet
          (if dictContains existingData "cookie-secret" then existingData
           else dictSet existingData "cookie-secret" (ConfigValue.str freshCookie))
          "client-id" idV) "client-secret" secV) "client-id" = some idV := by
        rw [dictGet_set_ne _ _ _ _ (by decide)]
        exact dictGet_set_self _ _ _
      have h3 : dictGet (dictSet (dictSet
          (if dictContains existingData "cookie-secret" then existingData
           else dictSet existingData "cookie-secret" (ConfigValue.str freshCookie))
          "client-id" idV) "client-secret" secV) "cookie-secret" = some c := by
        rw [dictGet_set_ne _ _ _ _ (by decide), dictGet_set_ne _ _ _ _ (by decide)]
        exact hc
      simp only [reconcileOidcSecret, hiss', hgid, hgsec]
      exact oidcFinish_result_ok _ _ _ _ _ _ _ _ h3 h2 h1
  · have hd1 : dictContains
        (if dictContains existingData "cookie-secret" then existingData
         else dictSet existingData "cookie-secret" (ConfigValue.str freshCookie))
        "client-id" = dictContains existingData "client-id" := by
      by_cases h : dictContains existingData "cookie-secret"
      · rw [if_pos h]
      · rw [if_neg h, dictContains_set]
        simp
    cases hgid : dictGet service.config "auth-oidc-client-id" with
    | some idV =>
      cases hgsec : dictGet service.config "auth-oidc-client-secret" with
      | none => simp [reconcileOidcSecret, hiss', hgid, hgsec, dictContains]
      | some secV =>
        simp [reconcileOidcSecret, hiss', hgid, hgsec, oidcFinish_registered,
          dictContains]
    | none =>
      have hcontid : dictContains service.config "auth-oidc-client-id" = false := by
        simp [dictContains, hgid]
      by_cases hcid : dictContains existingData "client-id"
      · simp [reconcileOidcSecret, hiss', hgid, hd1, hcid, oidcFinish_registered,
          hcontid]
      · simp [reconcileOidcSecret, hiss', hgid, hd1, hcid, oidcFinish_registered,
          hcontid]

/-- Witness for the C5 theorem: a service supplying an explicit client id
and secret, reconciled against a record that already holds a
dynamically-registered client, performs no registration. -/
theorem oidc_explicit_overrides_witness :
    (reconcileOidcSecret exCfg "oidc-app" c1Service "app.apps.example.org"
      [("cookie-secret", .str "OLDCOOKIE"), ("client-id", .str "dynamic-old"),
       ("client-secret", .str "dynamic-old-secret")]
      "COOKIESECRET" "0123456789abcdef" ("rid", "rsecret")).registered = false :=
  ((oidc_explicit_overrides_and_registration_iff exCfg "oidc-app" c1Service
    "app.apps.example.org"
    [("cookie-secret", .str "OLDCOOKIE"), ("client-id", .str "dynamic-old"),
     ("client-secret", .str "dynamic-old-secret")]
    "COOKIESECRET" "0123456789abcdef" ("rid", "rsecret") rfl).1
    (.str "client") (.str "hunter2") rfl rfl).1

/-- Branch reduction: explicit client id and secret supplied. -/
theorem reconcileOidc_reduce_explicit (cfg : SyncConfig) (releaseName : String)
    (service : Service) (serviceDomain : String) (ex : Dict ConfigValue)
    (fc ih : String) (reg : String × String) (iv idV secV : ConfigValue)
    (hiss : dictGet service.config "auth-oidc-issuer" = some iv)
    (hgid : dictGet service.config "auth-oidc-client-id" = some idV)
    (hgsec : dictGet service.config "auth-oidc-client-secret" = some secV) :
    reconcileOidcSecret cfg releaseName service serviceDomain ex fc ih reg =
      oidcFinish (oidcSecretName releaseName ih) ex
        (dictSet (dictSet
          (if dictContains ex "cookie-secret" then ex
           else dictSet ex "cookie-secret" (ConfigValue.str fc))
          "client-id" idV) "client-secret" secV)
        false none := by
  simp [reconcileOidcSecret, hiss, hgid, hgsec]

/-- Branch reduction: no explicit client id, a client-id already in the
data. -/
theorem reconcileOidc_reduce_reuse (cfg : SyncConfig) (releaseName : String)
    (service : Service) (serviceDomain : String) (ex : Dict ConfigValue)
    (fc ih : String) (reg : String × String) (iv : ConfigValue)
    (hiss : dictGet service.config "auth-oidc-issuer" = some iv)
    (hgid : dictGet service.config "auth-oidc-client-id" = none)
    (hcid : dictContains
      (if dictContains ex "cookie-secret" then ex
       else dictSet ex "cookie-secret" (ConfigValue.str fc)) "client-id" = true) :
    reconcileOidcSecret cfg releaseName service serviceDomain ex fc ih reg =
      oidcFinish (oidcSecretName releaseName ih) ex
        (if dictContains ex "cookie-secret" then ex
         else dictSet ex "cookie-secret" (ConfigValue.str fc))
        false none := by
  simp [reconcileOidcSecret, hiss, hgid, hcid]

/-- Branch reduction: no explicit client id and no client-id in the data,
so dynamic registration runs. -/
theorem reconcileOidc_reduce_register (cfg : SyncConfig) (releaseName : String)
    (service : Service) (serviceDomain : String) (ex : Dict ConfigValue)
    (fc ih : String) (reg : String × String) (iv : ConfigValue)
    (hiss : dictGet service.config "auth-oidc-issuer" = some iv)
    (hgid : dictGet service.config "auth-oidc-client-id" = none)
    (hcid : dictContains
      (if dictContains ex "cookie-secret" then ex
       else dictSet ex "cookie-secret" (ConfigValue.str fc)) "client-id" = false) :
    ∃ rq, reconcileOidcSecret cfg releaseName service serviceDomain ex fc ih reg =
      oidcFinish (oidcSecretName releaseName ih) ex
        (dictSet (dictSet
          (if dictContains ex "cookie-secret" then ex
           else dictSet ex "cookie-secret" (ConfigValue.str fc))
          "client-id" (ConfigValue.str reg.1)) "client-secret" (ConfigValue.str reg.2))
        true rq := by
  refine ⟨some
    { redirectUri :=
        (if cfg.ingress.tls.enabled || dictContains service.config "tls-cert"
         then "https" else "http") ++ "://" ++ serviceDomain ++ "/_oidc/callback"
      bearerToken := dictGet service.config "auth-oidc-client-registration-token" },
    ?_⟩
  simp [reconcileOidcSecret, hiss, hgid, hcid]

/-- What a successful _reconcile_oidc_secret run guarantees: the computed
data holds exactly the returned triple, the write happened precisely when
the data changed, an issuer was configured, and an explicitly supplied
client id/secret agrees with the returned triple. -/
theorem oidc_ok_facts (cfg : SyncConfig) (releaseName : String)
    (service : Service) (serviceDomain : String) (ex : Dict ConfigValue)
    (fc ih : String) (reg : String × String)
    (t : ConfigValue × ConfigValue × ConfigValue)
    (h : (reconcileOidcSecret cfg releaseName service serviceDomain ex fc ih
      reg).result = .ok t) :
    dictGet (reconcileOidcSecret cfg releaseName service serviceDomain ex fc ih
      reg).nextData "cookie-secret" = some t.1 ∧
    dictGet (reconcileOidcSecret cfg releaseName service serviceDomain ex fc ih
      reg).nextData "client-id" = some t.2.1 ∧
    dictGet (reconcileOidcSecret cfg releaseName service serviceDomain ex fc ih
      reg).nextData "client-secret" = some t.2.2 ∧
    ((reconcileOidcSecret cfg releaseName service serviceDomain ex fc ih
      reg).write = none ↔
      (reconcileOidcSecret cfg releaseName service serviceDomain ex fc ih
        reg).nextData = ex) ∧
    (∃ iv, dictGet service.config "auth-oidc-issuer" = some iv) ∧
    (∀ idV, dictGet service.config "auth-oidc-client-id" = some idV →
      idV = t.2.1 ∧
      dictGet service.config "auth-oidc-client-secret" = some t.2.2) := by
  cases hiss : dictGet service.config "auth-oidc-issuer" with
  | none => simp [reconcileOidcSecret, hiss] at h
  | some iv =>
    cases hgid : dictGet service.config "auth-oidc-client-id" with
    | some idV =>
      cases hgsec : dictGet service.config "auth-oidc-client-secret" with
      | none => simp [reconcileOidcSecret, hiss, hgid, hgsec] at h
      | some secV =>
        rw [reconcileOidc_reduce_explicit cfg releaseName service serviceDomain
          ex fc ih reg iv idV secV hiss hgid hgsec] at h ⊢
        rw [oidcFinish_result_ok_iff] at h
        obtain ⟨hc, hi, hs⟩ := h
        have g2 : dictGet (dictSet (dictSet
            (if dictContains ex "cookie-secret" then ex
             else dictSet ex "cookie-secret" (ConfigValue.str fc))
            "client-id" idV) "client-secret" secV) "client-id" = some idV := by
          rw [dictGet_set_ne _ _ _ _ (by decide)]
          exact dictGet_set_self _ _ _
        have g3 : dictGet (dictSet (dictSet
            (if dictContains ex "cookie-secret" then ex
             else dictSet ex "cookie-secret" (ConfigValue.str fc))
            "client-id" idV) "client-secret" secV) "client-secret" = some secV :=
          dictGet_set_self _ _ _
        have hidt : idV = t.2.1 := Option.some.inj (g2.symm.trans hi)
        have hsect : secV = t.2.2 := Option.some.inj (g3.symm.trans hs)
        refine ⟨?_, ?_, ?_, ?_, ⟨iv, rfl⟩, ?_⟩
        · rw [oidcFinish_nextData]; exact hc
        · rw [oidcFinish_nextData]; exact hi
        · rw [oidcFinish_nextData]; exact hs
        · rw [oidcFinish_write_none_iff, oidcFinish_nextData]
        · intro idV' hidV'
          have he : idV = idV' := Option.some.inj hidV'
          subst he
          exact ⟨hidt, by rw [hsect]⟩
    | none =>
      cases hcid : dictContains
          (if dictContains ex "cookie-secret" then ex
           else dictSet ex "cookie-secret" (ConfigValue.str fc)) "client-id" with
      | true =>
        rw [reconcileOidc_reduce_reuse cfg releaseName service serviceDomain
          ex fc ih reg iv hiss hgid hcid] at h ⊢
        rw [oidcFinish_result_ok_iff] at h
        obtain ⟨hc, hi, hs⟩ := h
        refine ⟨?_, ?_, ?_, ?_, ⟨iv, rfl⟩, ?_⟩
        · rw [oidcFinish_nextData]; exact hc
        · rw [oidcFinish_nextData]; exact hi
        · rw [oidcFinish_nextData]; exact hs
        · rw [oidcFinish_write_none_iff, oidcFinish_nextData]
        · intro idV' hidV'
          exact absurd hidV' (by simp)
      | false =>
        obtain ⟨rq, hred⟩ := reconcileOidc_reduce_register cfg releaseName
          service serviceDomain ex fc ih reg iv hiss hgid hcid
        rw [hred] at h ⊢
        rw [oidcFinish_result_ok_iff] at h
        obtain ⟨hc, hi, hs⟩ := h
        refine ⟨?_, ?_, ?_, ?_, ⟨iv, rfl⟩, ?_⟩
        · rw [oidcFinish_nextData]; exact hc
        · rw [oidcFinish_nextData]; exact hi
        · rw [oidcFinish_nextData]; exact hs
        · rw [oidcFinish_write_none_iff, oidcFinish_nextData]
        · intro idV' hidV'
          exact absurd hidV' (by simp)

/-- A run from a record that already satisfies the service's config is a
no-op: it returns the stored triple and performs no write. -/
theorem oidc_stable_run (cfg : SyncConfig) (releaseName : String)
    (service : Service) (serviceDomain : String) (ex2 : Dict ConfigValue)
    (fc2 ih : String) (reg2 : String × String) (c i s : ConfigValue)
    (hiss : ∃ iv, dictGet service.config "auth-oidc-issuer" = some iv)
    (hc : dictGet ex2 "cookie-secret" = some c)
    (hi : dictGet ex2 "client-id" = some i)
    (hs : dictGet ex2 "client-secret" = some s)
    (hconf : ∀ idV, dictGet service.config "auth-oidc-client-id" = some idV →
      idV = i ∧ dictGet service.config "auth-oidc-client-secret" = some s) :
    (reconcileOidcSecret cfg releaseName service serviceDomain ex2 fc2 ih
      reg2).result = .ok (c, i, s) ∧
    (reconcileOidcSecret cfg releaseName service serviceDomain ex2 fc2 ih
      reg2).write = none := by
  obtain ⟨iv, hiss'⟩ := hiss
  have hcook : dictContains ex2 "cookie-secret" = true := by
    simp [dictContains, hc]
  have hd1 : (if dictContains ex2 "cookie-secret" then ex2
              else dictSet ex2 "cookie-secret" (ConfigValue.str fc2)) = ex2 :=
    if_pos hcook
  cases hgid : dictGet service.config "auth-oidc-client-id" with
  | some idV =>
    obtain ⟨hidv, hgsec⟩ := hconf idV hgid
    have h1 : dictSet ex2 "client-id" idV = ex2 := by
      rw [hidv]
      exact dictSet_eq_self _ _ _ hi
    have h2 : dictSet ex2 "client-secret" s = ex2 :=
      dictSet_eq_self _ _ _ hs
    rw [reconcileOidc_reduce_explicit cfg releaseName service serviceDomain
      ex2 fc2 ih reg2 iv idV s hiss' hgid hgsec, hd1, h1, h2]
    exact ⟨oidcFinish_result_ok _ _ _ _ _ _ _ _ hc hi hs,
           (oidcFinish_write_none_iff _ _ _ _ _).mpr rfl⟩
  | none =>
    have hcid : dictContains
        (if dictContains ex2 "cookie-secret" then ex2
         else dictSet ex2 "cookie-secret" (ConfigValue.str fc2)) "client-id" = true := by
      rw [hd1]
      simp [dictContains, hi]
    rw [reconcileOidc_reduce_reuse cfg releaseName service serviceDomain
      ex2 fc2 ih reg2 iv hiss' hgid hcid, hd1]
    exact ⟨oidcFinish_result_ok _ _ _ _ _ _ _ _ hc hi hs,
           (oidcFinish_write_none_iff _ _ _ _ _).mpr rfl⟩

/-- C6: a successful OIDC client-record reconciliation writes back exactly
when the computed data differs from what was read, and running it again
from the resulting record (with fresh randomness and a fresh registration
oracle) returns the same cookie-secret/client-id/client-secret triple and
performs no write. -/
theorem oidc_reconcile_twice_stable (cfg : SyncConfig) (releaseName : String)
    (service : Service) (serviceDomain : String) (ex : Dict ConfigValue)
    (fc1 fc2 ih : String) (reg1 reg2 : String × String)
    (t : ConfigValue × ConfigValue × ConfigValue)
    (h1 : (reconcileOidcSecret cfg releaseName service serviceDomain ex fc1 ih
      reg1).result = .ok t) :
    ((reconcileOidcSecret cfg releaseName service serviceDomain ex fc1 ih
      reg1).write = none ↔
      (reconcileOidcSecret cfg releaseName service serviceDomain ex fc1 ih
        reg1).nextData = ex) ∧
    (reconcileOidcSecret cfg releaseName service serviceDomain
      (reconcileOidcSecret cfg releaseName service serviceDomain ex fc1 ih
        reg1).nextData fc2 ih reg2).result = .ok t ∧
    (reconcileOidcSecret cfg releaseName service serviceDomain
      (reconcileOidcSecret cfg releaseName service serviceDomain ex fc1 ih
        reg1).nextData fc2 ih reg2).write = none := by
  obtain ⟨hc, hi, hs, hwiff, hiss, hconf⟩ :=
    oidc_ok_facts cfg releaseName service serviceDomain ex fc1 ih reg1 t h1
  have h2 := oidc_stable_run cfg releaseName service serviceDomain
    (reconcileOidcSecret cfg releaseName service serviceDomain ex fc1 ih
      reg1).nextData fc2 ih reg2 t.1 t.2.1 t.2.2 hiss hc hi hs hconf
  exact ⟨hwiff, h2.1, h2.2⟩

/-- Witness for the C6 theorem: the second reconcile of a concrete OIDC
service, run from the record the first one computed, performs no write. -/
theorem oidc_reconcile_twice_stable_witness :
    (reconcileOidcSecret exCfg "oidc-app" c1Service "app.apps.example.org"
      (reconcileOidcSecret exCfg "oidc-app" c1Service "app.apps.example.org"
        [] "COOKIE1" "0123456789abcdef" ("rid", "rsecret")).nextData
      "COOKIE2" "0123456789abcdef" ("rid2", "rsecret2")).write = none :=
  (oidc_reconcile_twice_stable exCfg "oidc-app" c1Service
    "app.apps.example.org" [] "COOKIE1" "COOKIE2" "0123456789abcdef"
    ("rid", "rsecret") ("rid2", "rsecret2")
    (.str "COOKIE1", .str "client", .str "hunter2") rfl).2.2

/-! Lemmas about the retry loops. -/

/-- With an operation that fails on every attempt, the loop performs the
attempts from the current one up to the configured retries, logging a
retry line for each non-final attempt and a single give-up line. -/
theorem tryServiceOpAux_allfail (op : OpKind) (retries : Nat)
    (fails : Nat → Bool) (name : String) (hfail : ∀ a, fails a = true) :
    ∀ fuel attempt logs, attempt ≤ retries → retries - attempt < fuel →
    tryServiceOpAux op retries fails name fuel attempt logs =
      some (retries,
        logs ++ (List.range' attempt (retries - attempt)).map
          (fun a => LogMsg.retrying op name a) ++
        [LogMsg.givingUp op name retries]) := by
  intro fuel
  induction fuel with
  | zero => intro attempt logs h1 h2; omega
  | succ f ih =>
    intro attempt logs h1 h2
    simp only [tryServiceOpAux, hfail attempt, if_true]
    by_cases he : attempt = retries
    · subst he
      simp
    · rw [if_neg he]
      have hlt : attempt < retries := lt_of_le_of_ne h1 he
      rw [ih (attempt + 1) (logs ++ [LogMsg.retrying op name attempt])
        (by omega) (by omega)]
      have hn : retries - attempt = (retries - (attempt + 1)) + 1 := by omega
      rw [hn, List.range'_succ]
      simp

/-- Any retry loop with at least one configured attempt terminates within
retries steps, whatever the failure pattern. -/
theorem tryServiceOpAux_isSome_of_retries (op : OpKind) (retries : Nat)
    (fails : Nat → Bool) (name : String) :
    ∀ fuel attempt logs, attempt ≤ retries → retries - attempt < fuel →
    (tryServiceOpAux op retries fails name fuel attempt logs).isSome = true := by
  intro fuel
  induction fuel with
  | zero => intro attempt logs h1 h2; omega
  | succ f ih =>
    intro attempt logs h1 h2
    simp only [tryServiceOpAux]
    by_cases hf : fails attempt = true
    · by_cases he : attempt = retries
      · subst he
        simp [hf]
      · simp only [hf, if_true, if_neg he]
        exact ih (attempt + 1) _ (by omega) (by omega)
    · simp [hf]

/-- A retry loop terminates as soon as some reachable attempt succeeds. -/
theorem tryServiceOpAux_isSome_of_success (op : OpKind) (retries : Nat)
    (fails : Nat → Bool) (name : String) :
    ∀ fuel attempt logs k, attempt ≤ k → k < attempt + fuel →
    fails k = false →
    (tryServiceOpAux op retries fails name fuel attempt logs).isSome = true := by
  intro fuel
  induction fuel with
  | zero => intro attempt logs k h1 h2 _; omega
  | succ f ih =>
    intro attempt logs k h1 h2 hk
    simp only [tryServiceOpAux]
    by_cases hf : fails attempt = true
    · by_cases he : attempt = retries
      · subst he
        simp [hf]
      · simp only [hf, if_true, if_neg he]
        have hne : attempt ≠ k := by
          intro hh
          rw [hh, hk] at hf
          exact Bool.noConfusion hf
        exact ih (attempt + 1) _ k (by omega) (by omega) hk
    · simp [hf]

/-- With the give-up threshold at 0, an always-failing operation keeps the
loop running forever: the attempt counter starts at 1 and is only ever
compared for equality with the threshold, which it never meets. -/
theorem tryServiceOpAux_zero_none (op : OpKind) (fails : Nat → Bool)
    (name : String) (hfail : ∀ a, 1 ≤ a → fails a = true) :
    ∀ fuel attempt logs, 1 ≤ attempt →
    tryServiceOpAux op 0 fails name fuel attempt logs = none := by
  intro fuel
  induction fuel with
  | zero => intro attempt logs _; rfl
  | succ f ih =>
    intro attempt logs h1
    simp only [tryServiceOpAux, hfail attempt h1, if_true]
    have hne : attempt ≠ 0 := by omega
    rw [if_neg hne]
    exact ih (attempt + 1) _ (by omega)

/-- The give-up line occurs exactly once in the failure log. -/
theorem count_givingUp_once (op : OpKind) (name : String) (l1 : List Nat)
    (retries : Nat) :
    ((l1.map (fun a => LogMsg.retrying op name a)) ++
      [LogMsg.givingUp op name retries]).countP (fun m => isGivingUp m) = 1 := by
  rw [List.countP_append]
  have h0 : (l1.map (fun a => LogMsg.retrying op name a)).countP
      (fun m => isGivingUp m) = 0 := by
    rw [List.countP_eq_zero]
    intro m hm
    obtain ⟨a, -, rfl⟩ := List.mem_map.mp hm
    simp [isGivingUp]
  rw [h0]
  simp [List.countP_cons, isGivingUp]

/-- C2: with a configured maximum of retries at least 1 and an operation
that fails on every attempt, the wrapper (for reconcile and remove alike)
performs exactly retries attempts, logs the terminal give-up message
exactly once, and returns normally; and every member of a batch of
try-wrapped operations returns, whatever the failure behaviour of the
others. -/
theorem retry_gives_up_after_max_attempts (op : OpKind) (retries fuel : Nat)
    (fails : Nat → Bool) (name : String) (hfail : ∀ a, fails a = true)
    (h1 : 1 ≤ retries) (hfuel : retries ≤ fuel) :
    tryServiceOp op retries fails name fuel =
      some (retries,
        (List.range' 1 (retries - 1)).map (fun a => LogMsg.retrying op name a) ++
        [LogMsg.givingUp op name retries]) ∧
    ((List.range' 1 (retries - 1)).map (fun a => LogMsg.retrying op name a) ++
      [LogMsg.givingUp op name retries]).countP (fun m => isGivingUp m) = 1 ∧
    (∀ ops : List (String × (Nat → Bool)), ∀ r ∈ runBatch op retries fuel ops,
      r.isSome = true) := by
  refine ⟨?_, count_givingUp_once op name _ retries, ?_⟩
  · have := tryServiceOpAux_allfail op retries fails name hfail fuel 1 []
      h1 (by omega)
    simpa [tryServiceOp] using this
  · intro ops r hr
    obtain ⟨p, -, rfl⟩ := List.mem_map.mp hr
    exact tryServiceOpAux_isSome_of_retries op retries p.2 p.1 fuel 1 []
      h1 (by omega)

/-- Witness for the C2 theorem: two configured attempts against an
always-failing operation give exactly two attempts and one give-up log. -/
theorem retry_gives_up_after_max_attempts_witness :
    tryServiceOp OpKind.remove 2 (fun _ => true) "svc-c2" 2 =
      some (2,
        (List.range' 1 1).map (fun a => LogMsg.retrying OpKind.remove "svc-c2" a) ++
        [LogMsg.givingUp OpKind.remove "svc-c2" 2]) :=
  (retry_gives_up_after_max_attempts OpKind.remove 2 2 (fun _ => true) "svc-c2"
    (fun _ => rfl) (by omega) (by omega)).1

/-- C9: the retry wrappers terminate whenever the configured retries is at
least 1 (within retries attempts) or some reachable attempt succeeds, and
with retries = 0 an always-failing operation keeps them looping for ever:
no amount of fuel makes the loop return. -/
theorem retry_termination_characterisation (op : OpKind) (retries fuel : Nat)
    (fails : Nat → Bool) (name : String) :
    (1 ≤ retries → retries ≤ fuel →
      (tryServiceOp op retries fails name fuel).isSome = true) ∧
    ((∃ k, 1 ≤ k ∧ k ≤ fuel ∧ fails k = false) →
      (tryServiceOp op retries fails name fuel).isSome = true) ∧
    ((∀ a, 1 ≤ a → fails a = true) →
      tryServiceOp op 0 fails name fuel = none) := by
  refine ⟨?_, ?_, ?_⟩
  · intro h1 hfuel
    exact tryServiceOpAux_isSome_of_retries op retries fails name fuel 1 []
      h1 (by omega)
  · intro ⟨k, hk1, hk2, hk⟩
    exact tryServiceOpAux_isSome_of_success op retries fails name fuel 1 [] k
      hk1 (by omega) hk
  · intro hfail
    exact tryServiceOpAux_zero_none op fails name hfail fuel 1 [] (by omega)

/-- Witness for the C9 theorem: with two retries configured the loop
returns on an always-failing operation. -/
theorem retry_termination_characterisation_witness :
    (tryServiceOp OpKind.reconcile 2 (fun _ => true) "svc-c9" 3).isSome = true :=
  (retry_termination_characterisation OpKind.reconcile 2 3 (fun _ => true)
    "svc-c9").1 (by omega) (by omega)

/-- C4: at startup the existing managed service names are read via the
ownership label selector with a wildcard (presence) value, every snapshot
member is handed to reconcile, and exactly the existing names missing from
the snapshot are handed to removal; concretely, with managed resources for
a and b and a snapshot of a alone, b is removed and a reconciled. -/
theorem startup_reconciles_snapshot_and_removes_orphans (cfg : SyncConfig)
    (cluster : List ClusterSvcObj) (initial : List Service) :
    ((startupTasks cfg cluster initial).1 = initial) ∧
    (∀ n, n ∈ (startupTasks cfg cluster initial).2 ↔
      (n ∈ existingServiceNames cfg cluster ∧ ∀ s ∈ initial, s.name ≠ n)) ∧
    (∀ n, n ∈ existingServiceNames cfg cluster ↔
      ∃ o, o ∈ cluster ∧ matchesOwnerSelector cfg o.labels = true ∧ o.name = n) ∧
    startupTasks exCfg clusterAB [svcA] = ([svcA], ["b"]) := by
  refine ⟨rfl, ?_, ?_, by decide⟩
  · intro n
    simp [startupTasks, List.mem_filter, List.all_eq_true, bne_iff_ne]
  · intro n
    simp [existingServiceNames, List.mem_dedup, List.mem_map, List.mem_filter]
    tauto

/-- Witness for the C4 theorem: the concrete orphan-cleanup scenario. -/
theorem startup_orphan_cleanup_witness :
    startupTasks exCfg clusterAB [svcA] = ([svcA], ["b"]) :=
  (startup_reconciles_snapshot_and_removes_orphans exCfg clusterAB [svcA]).2.2.2

/-! Lemmas about the auth attachment. -/

theorem applyAuthExternal_fst (cfg : SyncConfig) (service : Service)
    (acts : List Action) (ingress : Ingress) (modifier : IngressModifier) :
    (applyAuthExternal cfg service acts ingress modifier).1 = acts := by
  unfold applyAuthExternal
  by_cases hc : (skipAuthOf service = false ∧
      authTypeOf service = ConfigValue.str "external" ∧
      cfg.ingress.external_auth.url ≠ "")
  · rw [if_pos hc]
    cases h : externalAuthHeaders cfg service <;> simp
  · rw [if_neg hc]

theorem oidcSecretActions_no_teardown (o : OidcSecretOutcome) :
    ∀ a ∈ oidcSecretActions o, a.isTeardown = false := by
  intro a ha
  unfold oidcSecretActions at ha
  rcases List.mem_append.mp ha with h | h
  · cases hr : o.regRequest with
    | none => rw [hr] at h; simp at h
    | some r =>
      rw [hr] at h
      simp at h
      subst h
      rfl
  · cases hw : o.write with
    | none => rw [hw] at h; simp at h
    | some s =>
      rw [hw] at h
      simp at h
      subst h
      rfl

theorem reconcileOidcProxy_fst (cfg : SyncConfig) (releaseName : String)
    (service : Service) (serviceDomain : String) (ex : Dict ConfigValue)
    (fc ih : String) (reg : String × String) :
    (reconcileOidcProxy cfg releaseName service serviceDomain ex fc ih reg).1 =
      oidcSecretActions
        (reconcileOidcSecret cfg releaseName service serviceDomain ex fc ih reg) ∨
    (reconcileOidcProxy cfg releaseName service serviceDomain ex fc ih reg).1 =
      oidcSecretActions
        (reconcileOidcSecret cfg releaseName service serviceDomain ex fc ih reg) ++
      [Action.helmEnsureRelease releaseName cfg.target_namespace] := by
  cases h : (reconcileOidcSecret cfg releaseName service serviceDomain ex fc ih
      reg).result with
  | error e => exact Or.inl (by simp [reconcileOidcProxy, h])
  | ok u => exact Or.inr (by simp [reconcileOidcProxy, h])

/-- C7: whenever OIDC authentication is not selected (skip-auth truthy, or
auth-type resolving to anything but oidc), the auth attachment actively
deletes the oidc-name /_oidc ingress and uninstalls the oidc-name release;
when OIDC is selected, no teardown action of either kind occurs. -/
theorem applyAuth_teardown_iff_not_oidc (cfg : SyncConfig) (service : Service)
    (serviceDomain : String) (ingress : Ingress) (modifier : IngressModifier)
    (existingData : Dict ConfigValue) (freshCookie issuerHash : String)
    (regResult : String × String) :
    (¬(skipAuthOf service = false ∧ authTypeOf service = ConfigValue.str "oidc") →
      Action.deleteIngress ("oidc-" ++ service.name) ∈
        (applyAuth cfg service serviceDomain ingress modifier existingData
          freshCookie issuerHash regResult).1 ∧
      Action.helmUninstallRelease ("oidc-" ++ service.name) cfg.target_namespace ∈
        (applyAuth cfg service serviceDomain ingress modifier existingData
          freshCookie issuerHash regResult).1) ∧
    ((skipAuthOf service = false ∧ authTypeOf service = ConfigValue.str "oidc") →
      ∀ a ∈ (applyAuth cfg service serviceDomain ingress modifier existingData
          freshCookie issuerHash regResult).1, a.isTeardown = false) := by
  constructor
  · intro h
    have heq : (applyAuth cfg service serviceDomain ingress modifier existingData
        freshCookie issuerHash regResult).1 =
        [Action.deleteIngress ("oidc-" ++ service.name),
         Action.helmUninstallRelease ("oidc-" ++ service.name)
           cfg.target_namespace] := by
      simp only [applyAuth, if_neg h]
      exact applyAuthExternal_fst cfg service _ ingress modifier
    rw [heq]
    exact ⟨List.mem_cons_self _ _, List.mem_cons_of_mem _ (List.mem_cons_self _ _)⟩
  · intro h a ha
    have hpr := reconcileOidcProxy_fst cfg ("oidc-" ++ service.name) service
      serviceDomain existingData freshCookie issuerHash regResult
    cases hr : (reconcileOidcProxy cfg ("oidc-" ++ service.name) service
        serviceDomain existingData freshCookie issuerHash regResult).2 with
    | error e =>
      simp only [applyAuth, if_pos h, hr] at ha
      rcases hpr with hfst | hfst <;> rw [hfst] at ha
      · exact oidcSecretActions_no_teardown _ a ha
      · rcases List.mem_append.mp ha with h1 | h1
        · exact oidcSecretActions_no_teardown _ a h1
        · simp at h1
          subst h1
          rfl
    | ok u =>
      simp only [applyAuth, if_pos h, hr, applyAuthExternal_fst] at ha
      rcases List.mem_append.mp ha with h1 | h1
      · rcases hpr with hfst | hfst <;> rw [hfst] at h1
        · exact oidcSecretActions_no_teardown _ a h1
        · rcases List.mem_append.mp h1 with h2 | h2
          · exact oidcSecretActions_no_teardown _ a h2
          · simp at h2
            subst h2
            rfl
      · simp at h1
        subst h1
        rfl

/-- Witness for the C7 theorem: a service with default (external) auth has
both OIDC components torn down. -/
theorem applyAuth_teardown_witness :
    Action.deleteIngress "oidc-app" ∈
      (applyAuth exCfg extService "app.apps.example.org" emptyIngress idModifier
        [] "COOKIE" "0123456789abcdef" ("rid", "rsecret")).1 ∧
    Action.helmUninstallRelease "oidc-app" "zenith-services" ∈
      (applyAuth exCfg extService "app.apps.example.org" emptyIngress idModifier
        [] "COOKIE" "0123456789abcdef" ("rid", "rsecret")).1 :=
  (applyAuth_teardown_iff_not_oidc exCfg extService "app.apps.example.org"
    emptyIngress idModifier [] "COOKIE" "0123456789abcdef" ("rid", "rsecret")).1
    (by decide)

/-- C8: with mirroring enabled, the mirror loop emits one action for the
initial state and one per watch event: a create-or-replace of the mirror
secret in the target namespace when the source exists (same type and data,
back-reference annotation source-namespace/source-name), and a delete of
the mirror when the source is absent or the event is a deletion. -/
theorem mirror_tracks_source (cfg : SyncConfig)
    (initial : Option WatchedSecret) (events : List SecretEvent)
    (h : mirrorEnabled cfg = true) :
    ∃ tr, mirrorRun cfg initial events = some tr ∧
      tr.length = events.length + 1 ∧
      tr[0]? = some (match initial with
        | some src => MirrorAction.update cfg.target_namespace
            cfg.ingress.tls.secret_name (mirrorSecretBody cfg src)
        | none => MirrorAction.delete cfg.target_namespace
            cfg.ingress.tls.secret_name) ∧
      (∀ i ev, events[i]? = some ev →
        tr[i + 1]? = some (if ev.type ≠ "DELETED" then
          MirrorAction.update cfg.target_namespace cfg.ingress.tls.secret_name
            (mirrorSecretBody cfg ev.object)
          else MirrorAction.delete cfg.target_namespace
            cfg.ingress.tls.secret_name)) ∧
      (∀ src, (mirrorSecretBody cfg src).type = some src.type ∧
        (mirrorSecretBody cfg src).data = src.data ∧
        (mirrorSecretBody cfg src).metadata.name = cfg.ingress.tls.secret_name ∧
        dictGet (mirrorSecretBody cfg src).metadata.annotations
          cfg.tls_mirror_annotation_key = some (src.ns ++ "/" ++ src.name)) := by
  refine ⟨mirrorInit cfg initial :: events.map (mirrorStep cfg), ?_, ?_, ?_, ?_, ?_⟩
  · simp [mirrorRun, h]
  · simp
  · cases initial <;> simp [mirrorInit]
  · intro i ev he
    simp [List.getElem?_map, he, mirrorStep]
  · intro src
    refine ⟨rfl, rfl, rfl, ?_⟩
    simp [mirrorSecretBody, dictGet]

/-- Witness for the C8 theorem: with the source secret initially absent,
then created, then deleted, the mirror run produces a trace. -/
theorem mirror_tracks_source_witness :
    (mirrorRun exCfg none
      [{ type := "ADDED", object := wildcardSecret },
       { type := "DELETED", object := wildcardSecret }]).isSome = true := by
  obtain ⟨tr, htr, -⟩ := mirror_tracks_source exCfg none
    [{ type := "ADDED", object := wildcardSecret },
     { type := "DELETED", object := wildcardSecret }] rfl
  simp [htr]

end Zenith
